import Mathlib

/-!
Verification of the per-session dual-channel bridge of the voice-ordering
gateway (`rust-code`): the device-bound audio framing codec, the inbound
channel-extraction codec, the session event loop of
`handlers/audio.rs::handle_audio_socket`, the registration-retry admission
loop of `handlers/message.rs::handle_message`, and the order-snapshot
persistence guard of `persistence.rs::persist_order`.

Bytes are modelled as `Nat` with the hypothesis `< 256` where it matters;
`u32` arithmetic (CRC32) stays below `2^32` because xor and right-shift
cannot overflow.
-/

/-! ### CRC32 (crc32fast::hash, the standard CRC-32/ISO-HDLC algorithm) -/

/-- The reflected CRC-32 polynomial 0xEDB88320 used by `crc32fast::hash`. -/
def crc32Poly : Nat := 0xEDB88320

/-- One bit-step of the reflected CRC-32: shift right, conditionally xor
the polynomial when the low bit was set. -/
def crc32Step (crc : Nat) : Nat :=
  if crc % 2 = 1 then (crc / 2) ^^^ crc32Poly else crc / 2

/-- Process one input byte: xor it into the low byte of the register and
run eight bit-steps. -/
def crc32UpdateByte (crc b : Nat) : Nat :=
  crc32Step (crc32Step (crc32Step (crc32Step
    (crc32Step (crc32Step (crc32Step (crc32Step (crc ^^^ b))))))))

/-- `crc32 data` is `crc32fast::hash(data)`: register initialised to
0xFFFFFFFF, one update per byte, final complement. -/
def crc32 (data : List Nat) : Nat :=
  (data.foldl crc32UpdateByte 0xFFFFFFFF) ^^^ 0xFFFFFFFF

/-! ### Device-bound audio framing (audio.rs lines 505-521 and 190-197) -/

/-- `u32::to_be_bytes`: the four bytes of a 32-bit word, most significant
first. -/
def natToBeBytes4 (c : Nat) : List Nat :=
  [c / 2^24 % 256, c / 2^16 % 256, c / 2^8 % 256, c % 256]

/-- Big-endian recomposition of a byte list, used by the decoder. -/
def beBytesToNat (bytes : List Nat) : Nat :=
  bytes.foldl (fun acc b => acc * 256 + b) 0

/-- The 16-byte header preceding every device-bound audio payload:
4-byte big-endian CRC32 of the payload, one zero byte, 11 zero bytes.
Mirrors the `message` construction in `handle_audio_socket`. -/
def frameHeader (payload : List Nat) : List Nat :=
  natToBeBytes4 (crc32 payload) ++ [0] ++ List.replicate 11 0

/-- Device-bound framing: header followed by the raw payload. -/
def encodeFrame (payload : List Nat) : List Nat :=
  frameHeader payload ++ payload

/-- Modelled from the spec: `decode` is not present in `src` (inbound
device frames are raw, only the device-bound direction is framed); the
spec's round-trip property defines it as reading the first 4 bytes as the
big-endian checksum and the bytes after the 16-byte header as the
payload. -/
def decodeFrame (frame : List Nat) : Option (Nat × List Nat) :=
  if frame.length < 16 then none
  else some (beBytesToNat (frame.take 4), frame.drop 16)

/-! ### Inbound channel extraction (audio.rs lines 550-566) -/

/-- The capture/mic extraction applied to each inbound device frame before
forwarding upstream: for each of the `len / 4` four-byte sample groups,
keep bytes `4*index` and `4*index + 1`. -/
def captureFrame (msg : List Nat) : List Nat :=
  (List.range (msg.length / 4)).flatMap
    (fun index => [msg.getD (4 * index) 0, msg.getD (4 * index + 1) 0])

/-! ### Data model (main.rs, api.rs) -/

/-- Events the /audio and /message handlers send each other
(`main.rs::CrossChannelEvent`). -/
inductive CrossChannelEvent where
  | UserStartedSpeaking
  | Arrive
  | Depart
  | Played
  | Escalation
deriving DecidableEq

/-- One agent-issued function-call request entry
(`api.rs::FunctionCallRequestItem`). -/
structure FunctionCallRequestItem where
  id : String
  name : String
  arguments : String
  client_side : Bool
deriving DecidableEq

/-- Parsed upstream text messages (`api.rs::ServerMessage`). -/
inductive ServerMessage where
  | Welcome (session_id : String)
  | UserStartedSpeaking
  | FunctionCallRequest (functions : List FunctionCallRequestItem)
deriving DecidableEq

/-- `main.rs::ENABLE_BARGE_IN`. -/
def ENABLE_BARGE_IN : Bool := false

/-- The fields of the parsed `arguments` JSON object that
`handle_audio_socket` reads: `input["query"]`, `input["parent"]`,
`input.get("limit")`, `input["itemPathKey"]`, `input["itemId"]`
(each `as_str`/`as_u64`, absent or wrongly typed modelled as `none`). -/
structure Args where
  query : Option String
  parent : Option String
  limit : Option Nat
  itemPathKey : Option String
  itemId : Option String
deriving DecidableEq

/-- A backend operation invoked by the session loop: the Qu order
backend (`qu.rs`) and the menu-search backend (`query.rs`). -/
inductive BackendCall where
  | newOrder
  | getOrder (orderId : String)
  | addItem (orderId itemPathKey : String)
  | deleteItem (orderId itemId : String)
  | addModifier (orderId itemId modifierPathKey : String)
  | queryMenu (query : String) (limit : Option Nat)
  | queryModifiers (query parent : String) (limit : Option Nat)
deriving DecidableEq

/-- A `FunctionCallResponse` sent upstream: serialized as
type "FunctionCallResponse" with the request id, the function name and a
string content. -/
structure FunctionCallResponse where
  id : String
  name : String
  content : String
deriving DecidableEq

/-- Observable effects of one iteration of the `handle_audio_socket`
event loop. -/
inductive Output where
  | sendDevice (frame : List Nat)
  | sendUpstreamBinary (bytes : List Nat)
  | sendResponse (r : FunctionCallResponse)
  | keepAlive
  | stsConnect
  | sendSettings
  | xchUserStartedSpeaking
  | call (c : BackendCall)
  | persist (orderId : Option String) (dgRequestId : Option String) (reason : String)
deriving DecidableEq

/-- The mutable per-session state of `handle_audio_socket`:
`dg_request_id`, `qu_order_id`, the `sts_sender`/`sts_receiver` pair
(always both `Some` or both `None`, collapsed into one flag),
`agent_speaking` and `buffered_audio`. -/
structure SessionState where
  dgRequestId : Option String
  quOrderId : Option String
  stsConnected : Bool
  agentSpeaking : Bool
  bufferedAudio : List Nat
deriving DecidableEq

/-- The state initialised at the top of `handle_audio_socket`. -/
def initialState : SessionState :=
  { dgRequestId := none, quOrderId := none, stsConnected := false
  , agentSpeaking := false, bufferedAudio := [] }

/-- External collaborators, abstracted as oracles: the order id returned
by `qu::orders`, the serde JSON parse of function-call arguments, the
menu/modifier search and lookup results, and the Qu CRUD results. -/
structure Env where
  newOrderId : String
  parseArgs : String → Except String Args
  queryMenu : String → Option Nat → String
  queryModifiersSearch : String → String → Option Nat → String
  findItem : String → Option String
  findModifier : String → Option String
  addItem : String → String → Except String String
  deleteItem : String → String → String
  addModifier : String → String → String → Except String String
  getOrder : String → String

/-- The events one iteration of the `tokio::select!` loop in
`handle_audio_socket` can wake up on: a cross-channel event from the
message handler, a text / binary / close frame from the upstream (STS)
connection, or a binary frame from the device. -/
inductive Event where
  | xch (e : CrossChannelEvent)
  | upstreamText (m : ServerMessage)
  | upstreamBinary (audio : List Nat)
  | upstreamClose
  | deviceBinary (msg : List Nat)

/-- The error content built on an arguments-JSON parse failure. -/
def parseErrorContent (e : String) : String :=
  "\x7b\"error\":\"invalid arguments JSON: " ++ e ++ "\"\x7d"

/-- Send a response upstream when the sender exists, silently drop it
otherwise (the `if let Some(ref mut sender) = sts_sender` pattern). -/
def sendIf (stsConnected : Bool) (r : FunctionCallResponse) : List Output :=
  if stsConnected then [Output.sendResponse r] else []

/-- The per-item body of the `for f in functions` function-call router in
`handle_audio_socket` (audio.rs lines 263-491): skip server-side entries,
parse the arguments, and dispatch through the successive
`if function_name == …` blocks. -/
def handleFunction (env : Env) (quOrderId : Option String) (stsConnected : Bool)
    (f : FunctionCallRequestItem) : List Output :=
  if !f.client_side then []
  else
    match env.parseArgs f.arguments with
    | Except.error e =>
        sendIf stsConnected ⟨f.id, f.name, parseErrorContent e⟩
    | Except.ok input =>
        (if f.name = "query_items" then
          let query := input.query.getD ""
          let limit := input.limit
          [Output.call (BackendCall.queryMenu query limit)] ++
            sendIf stsConnected ⟨f.id, f.name, env.queryMenu query limit⟩
        else []) ++
        (if f.name = "query_modifiers" then
          let query := input.query.getD ""
          let parent := input.parent.getD ""
          let limit := input.limit
          [Output.call (BackendCall.queryModifiers query parent limit)] ++
            sendIf stsConnected ⟨f.id, f.name, env.queryModifiersSearch query parent limit⟩
        else []) ++
        (if f.name = "add_item" then
          let itemPathKey := input.itemPathKey.getD ""
          match env.findItem itemPathKey, quOrderId with
          | some itemKey, some orderId =>
              let content := match env.addItem orderId itemKey with
                | Except.ok order => order
                | Except.error error => error
              [Output.call (BackendCall.addItem orderId itemKey)] ++
                sendIf stsConnected ⟨f.id, f.name, content⟩
          | _, _ =>
              sendIf stsConnected ⟨f.id, f.name, "Failed - item and/or order error."⟩
        else []) ++
        (if f.name = "delete_item" then
          let itemId := input.itemId.getD ""
          match quOrderId with
          | some orderId =>
              [Output.call (BackendCall.deleteItem orderId itemId)] ++
                sendIf stsConnected ⟨f.id, f.name, env.deleteItem orderId itemId⟩
          | none =>
              sendIf stsConnected ⟨f.id, f.name, "Failed - order not present."⟩
        else []) ++
        (if f.name = "add_modifier" then
          let itemId := input.itemId.getD ""
          let itemPathKey := input.itemPathKey.getD ""
          match env.findModifier itemPathKey, quOrderId with
          | some modifierKey, some orderId =>
              let content := match env.addModifier orderId itemId modifierKey with
                | Except.ok order => order
                | Except.error error => error
              [Output.call (BackendCall.addModifier orderId itemId modifierKey)] ++
                sendIf stsConnected ⟨f.id, f.name, content⟩
          | _, _ =>
              sendIf stsConnected ⟨f.id, f.name, "Failed - item and/or order error."⟩
        else []) ++
        (if f.name = "order" then
          match quOrderId with
          | some orderId =>
              [Output.call (BackendCall.getOrder orderId)] ++
                sendIf stsConnected ⟨f.id, f.name, env.getOrder orderId⟩
          | none =>
              sendIf stsConnected ⟨f.id, f.name, "Failed - no order present."⟩
        else [])

/-- One iteration of the `handle_audio_socket` event loop: the state
update and the observable effects for one delivered event. Upstream
events are only deliverable while `sts_receiver` is `Some` (the select
arm polls it only then). -/
def step (env : Env) (s : SessionState) : Event → SessionState × List Output
  | Event.xch e =>
    match e with
    | CrossChannelEvent.Arrive =>
        ({ s with stsConnected := true, quOrderId := some env.newOrderId },
         [Output.stsConnect, Output.sendSettings, Output.call BackendCall.newOrder])
    | CrossChannelEvent.Depart =>
        ({ s with quOrderId := none, stsConnected := false,
                  bufferedAudio := [], agentSpeaking := false },
         [Output.persist s.quOrderId s.dgRequestId "depart"])
    | CrossChannelEvent.Played =>
        -- agent_speaking = false; if !agent_speaking && !buffered_audio.is_empty() { flush }
        if !s.bufferedAudio.isEmpty then
          ({ s with agentSpeaking := true, bufferedAudio := [] },
           [Output.sendDevice (encodeFrame s.bufferedAudio)])
        else
          ({ s with agentSpeaking := false }, [])
    | CrossChannelEvent.Escalation =>
        ({ s with quOrderId := none, stsConnected := false,
                  bufferedAudio := [], agentSpeaking := false },
         [Output.persist s.quOrderId s.dgRequestId "escalation"])
    | CrossChannelEvent.UserStartedSpeaking =>
        -- the `_ => warn!(… unhandled CrossChannelEvent)` arm
        (s, [])
  | Event.upstreamText m =>
    if s.stsConnected then
      match m with
      | ServerMessage.Welcome session_id =>
          ({ s with dgRequestId := some session_id }, [])
      | ServerMessage.UserStartedSpeaking =>
          (s, if ENABLE_BARGE_IN then [Output.xchUserStartedSpeaking] else [])
      | ServerMessage.FunctionCallRequest functions =>
          (s, (functions.map (handleFunction env s.quOrderId s.stsConnected)).flatten)
    else (s, [])
  | Event.upstreamBinary audio =>
    if s.stsConnected then
      if !s.agentSpeaking then
        ({ s with agentSpeaking := true }, [Output.sendDevice (encodeFrame audio)])
      else
        ({ s with bufferedAudio := s.bufferedAudio ++ audio }, [])
    else (s, [])
  | Event.upstreamClose =>
    if s.stsConnected then
      (s, [Output.persist s.quOrderId s.dgRequestId "close"])
    else (s, [])
  | Event.deviceBinary msg =>
    if !ENABLE_BARGE_IN && s.agentSpeaking then
      (s, if s.stsConnected then [Output.keepAlive] else [])
    else
      (s, if s.stsConnected then [Output.sendUpstreamBinary (captureFrame msg)] else [])

/-- States reachable by the event loop from its initial state, for any
interleaving of events and any collaborator behaviour. -/
inductive Reachable : SessionState → Prop where
  | init : Reachable initialState
  | next : ∀ {s} (env : Env) (e : Event), Reachable s → Reachable (step env s e).1

/-! ### Order-snapshot persistence (persistence.rs::persist_order) -/

/-- The I/O effects `persist_order` can perform: fetching the order from
the Qu backend and writing the snapshot file. -/
inductive PersistEffect where
  | fetchOrder (orderId : String)
  | writeFile (path : String) (contents : String)
deriving DecidableEq

/-- `persistence.rs::persist_order`: only when both `qu_order_id` and
`dg_request_id` are present does it fetch the order and write the
snapshot file named `{timestamp}_{order}_{request}_{reason}.json`;
otherwise it does nothing. The timestamp and the fetched order contents
are oracle inputs. -/
def persist_order (getOrder : String → String) (ordersDirectory timestamp : String)
    (quOrderId dgRequestId : Option String) (reason : String) : List PersistEffect :=
  match quOrderId, dgRequestId with
  | some orderId, some requestId =>
      let key := timestamp ++ "_" ++ orderId ++ "_" ++ requestId ++ "_" ++ reason ++ ".json"
      let order := getOrder orderId
      [PersistEffect.fetchOrder orderId,
       PersistEffect.writeFile (ordersDirectory ++ "/" ++ key) order]
  | _, _ => []

/-! ### Message-connection admission retry (message.rs lines 60-74) -/

/-- Outcome of the registration-wait loop in `handle_message`:
either the websocket upgrade proceeds after `attempt` failed lookups, or
the connection is rejected with BAD_REQUEST; `sleptSecs` counts the
5-second sleeps performed. -/
inductive AdmissionResult where
  | upgrade (attempt : Nat) (sleptSecs : Nat)
  | badRequest (sleptSecs : Nat)
deriving DecidableEq

/-- The body of the `loop` in `handle_message`: look the session id up in
the registry; on success break to the upgrade; on failure sleep 5
seconds, reject with BAD_REQUEST when the iteration counter has reached
4, else increment and retry. The counter starts at 0 and only increments
by one, so the source's `iterations == 4` test is reached exactly when
`4 ≤ iterations`. -/
def admissionLoop (present : Nat → Bool) (iterations sleptSecs : Nat) : AdmissionResult :=
  if present iterations then AdmissionResult.upgrade iterations sleptSecs
  else if 4 ≤ iterations then AdmissionResult.badRequest (sleptSecs + 5)
  else admissionLoop present (iterations + 1) (sleptSecs + 5)
termination_by 5 - iterations
decreasing_by omega

/-- `handle_message`'s admission wait, started with `iterations = 0`:
`present k` says whether the audio-side registry entry exists at the
k-th lookup. -/
def messageAdmission (present : Nat → Bool) : AdmissionResult :=
  admissionLoop present 0 0

/-! ### Helper lemmas -/

theorem crc32Step_lt (c : Nat) (h : c < 2^32) : crc32Step c < 2^32 := by
  unfold crc32Step
  split
  · exact Nat.xor_lt_two_pow (by omega) (by norm_num [crc32Poly])
  · omega

theorem crc32UpdateByte_lt (c b : Nat) (hc : c < 2^32) (hb : b < 256) :
    crc32UpdateByte c b < 2^32 := by
  unfold crc32UpdateByte
  have h0 : c ^^^ b < 2^32 := Nat.xor_lt_two_pow hc (by omega)
  exact crc32Step_lt _ (crc32Step_lt _ (crc32Step_lt _ (crc32Step_lt _
    (crc32Step_lt _ (crc32Step_lt _ (crc32Step_lt _ (crc32Step_lt _ h0)))))))

theorem foldl_crc32UpdateByte_lt (data : List Nat) :
    ∀ acc, acc < 2^32 → (∀ x ∈ data, x < 256) →
      data.foldl crc32UpdateByte acc < 2^32 := by
  induction data with
  | nil => intro acc hacc _; simpa using hacc
  | cons b rest ih =>
      intro acc hacc hb
      simp only [List.foldl_cons]
      exact ih _ (crc32UpdateByte_lt _ _ hacc (hb b (by simp)))
        (fun x hx => hb x (by simp [hx]))

theorem crc32_lt (data : List Nat) (h : ∀ x ∈ data, x < 256) : crc32 data < 2^32 := by
  unfold crc32
  exact Nat.xor_lt_two_pow (foldl_crc32UpdateByte_lt data _ (by norm_num) h) (by norm_num)

theorem beBytesToNat_natToBeBytes4 (c : Nat) (h : c < 2^32) :
    beBytesToNat (natToBeBytes4 c) = c := by
  simp only [natToBeBytes4, beBytesToNat, List.foldl]
  norm_num
  omega

theorem frameHeader_length (payload : List Nat) : (frameHeader payload).length = 16 := by
  simp [frameHeader, natToBeBytes4]

theorem encodeFrame_take16 (payload : List Nat) :
    (encodeFrame payload).take 16 = frameHeader payload := by
  rw [encodeFrame, ← frameHeader_length payload]
  exact List.take_left _ _

theorem encodeFrame_drop16 (payload : List Nat) :
    (encodeFrame payload).drop 16 = payload := by
  rw [encodeFrame, ← frameHeader_length payload]
  exact List.drop_left _ _

theorem encodeFrame_length (payload : List Nat) :
    (encodeFrame payload).length = 16 + payload.length := by
  simp [encodeFrame, frameHeader, natToBeBytes4]
  omega

theorem encodeFrame_take4 (payload : List Nat) :
    (encodeFrame payload).take 4 = natToBeBytes4 (crc32 payload) := by
  simp [encodeFrame, frameHeader, natToBeBytes4, List.take_succ_cons]

theorem decodeFrame_encodeFrame (payload : List Nat) (h : ∀ x ∈ payload, x < 256) :
    decodeFrame (encodeFrame payload) = some (crc32 payload, payload) := by
  rw [decodeFrame, if_neg (by rw [encodeFrame_length]; omega)]
  rw [encodeFrame_take4, encodeFrame_drop16,
    beBytesToNat_natToBeBytes4 _ (crc32_lt payload h)]

theorem pairFlatMap_length (f g : Nat → Nat) (n : Nat) :
    ((List.range n).flatMap fun i => [f i, g i]).length = 2 * n := by
  induction n with
  | zero => simp
  | succ n ih =>
      rw [List.range_succ, List.flatMap_append, List.length_append, ih]
      simp
      omega

theorem pairFlatMap_getD (f g : Nat → Nat) (n k : Nat) (hk : k < n) :
    ((List.range n).flatMap fun i => [f i, g i]).getD (2 * k) 0 = f k ∧
    ((List.range n).flatMap fun i => [f i, g i]).getD (2 * k + 1) 0 = g k := by
  induction n with
  | zero => omega
  | succ n ih =>
      rw [List.range_succ, List.flatMap_append]
      rcases Nat.lt_or_ge k n with hlt | hge
      · constructor
        · rw [List.getD_append _ _ _ _ (by rw [pairFlatMap_length]; omega)]
          exact (ih hlt).1
        · rw [List.getD_append _ _ _ _ (by rw [pairFlatMap_length]; omega)]
          exact (ih hlt).2
      · have hkn : k = n := by omega
        subst hkn
        constructor
        · rw [List.getD_append_right _ _ _ _ (by rw [pairFlatMap_length])]
          rw [pairFlatMap_length]
          simp
        · rw [List.getD_append_right _ _ _ _ (by rw [pairFlatMap_length]; omega)]
          rw [pairFlatMap_length]
          have : 2 * k + 1 - 2 * k = 1 := by omega
          rw [this]
          simp

theorem captureFrame_length (msg : List Nat) :
    (captureFrame msg).length = 2 * (msg.length / 4) :=
  pairFlatMap_length _ _ _

theorem captureFrame_getD (msg : List Nat) (k : Nat) (hk : k < msg.length / 4) :
    (captureFrame msg).getD (2 * k) 0 = msg.getD (4 * k) 0 ∧
    (captureFrame msg).getD (2 * k + 1) 0 = msg.getD (4 * k + 1) 0 :=
  pairFlatMap_getD _ _ _ _ hk

/-- Only `Depart` and `Escalation` (and the initial state) leave the
upstream connection absent, and both also reset `agent_speaking` and the
buffer; hence every reachable state without an upstream connection has
`agent_speaking = false` and an empty playback buffer. -/
theorem reachable_idle_inv {s : SessionState} (h : Reachable s) :
    s.stsConnected = false → s.agentSpeaking = false ∧ s.bufferedAudio = [] := by
  induction h with
  | init => intro _; exact ⟨rfl, rfl⟩
  | @next t env e hr ih =>
    cases e with
    | xch ce =>
      cases ce with
      | UserStartedSpeaking => exact ih
      | Arrive => intro hc; simp [step] at hc
      | Depart => intro _; simp [step]
      | Escalation => intro _; simp [step]
      | Played =>
        intro hc
        by_cases hb : t.bufferedAudio = []
        · simp [step, hb] at hc ⊢
        · simp [step, hb] at hc
          exact absurd ((ih hc).2) hb
    | upstreamText m =>
      cases hcs : t.stsConnected with
      | true => cases m <;> simp [step, hcs]
      | false =>
        simp only [step, hcs]
        simp only [Bool.false_eq_true, if_false]
        intro _
        exact ih hcs
    | upstreamBinary audio =>
      cases hcs : t.stsConnected with
      | true =>
        simp only [step, hcs, if_true]
        split <;> simp
      | false =>
        simp only [step, hcs]
        simp only [Bool.false_eq_true, if_false]
        intro _
        exact ih hcs
    | upstreamClose =>
      simp only [step]
      split <;> exact ih
    | deviceBinary msg =>
      simp only [step]
      split <;> exact ih

/-- C7: a message-connection admission attempt performs up to 5 registry
lookups separated by 5-second sleeps; if all 5 fail the connection is
rejected with BAD_REQUEST, and if the audio-side entry appears at some
lookup within the window the connection proceeds to the upgrade. -/
theorem message_admission_retry (present : Nat → Bool) :
    ((∀ k, k ≤ 4 → present k = false) →
      messageAdmission present = AdmissionResult.badRequest 25) ∧
    (∀ k, k ≤ 4 → present k = true → (∀ j, j < k → present j = false) →
      messageAdmission present = AdmissionResult.upgrade k (5 * k)) := by
  constructor
  · intro h
    simp [messageAdmission, admissionLoop, h 0 (by norm_num), h 1 (by norm_num),
      h 2 (by norm_num), h 3 (by norm_num), h 4 (by norm_num)]
  · intro k hk hpk hprev
    interval_cases k
    · simp [messageAdmission, admissionLoop, hpk]
    · simp [messageAdmission, admissionLoop, hpk, hprev 0 (by norm_num)]
    · simp [messageAdmission, admissionLoop, hpk, hprev 0 (by norm_num),
        hprev 1 (by norm_num)]
    · simp [messageAdmission, admissionLoop, hpk, hprev 0 (by norm_num),
        hprev 1 (by norm_num), hprev 2 (by norm_num)]
    · simp [messageAdmission, admissionLoop, hpk, hprev 0 (by norm_num),
        hprev 1 (by norm_num), hprev 2 (by norm_num), hprev 3 (by norm_num)]

/-- C7 witness: with the registry entry never present, admission is
rejected with BAD_REQUEST after the 5 lookups and 25 seconds of sleeps. -/
theorem message_admission_retry_witness :
    messageAdmission (fun _ => false) = AdmissionResult.badRequest 25 :=
  (message_admission_retry (fun _ => false)).1 (fun _ _ => rfl)

/-- A concrete collaborator environment used for witnesses and
counterexamples: every arguments string fails to parse. -/
def env0 : Env :=
  { newOrderId := "order-1"
  , parseArgs := fun _ => Except.error "expected value at line 1 column 1"
  , queryMenu := fun _ _ => ""
  , queryModifiersSearch := fun _ _ _ => ""
  , findItem := fun _ => none
  , findModifier := fun _ => none
  , addItem := fun _ _ => Except.ok ""
  , deleteItem := fun _ _ => ""
  , addModifier := fun _ _ _ => Except.ok ""
  , getOrder := fun _ => "" }

/-- C1: the device-bound framing emits exactly a 16-byte header — the
4-byte big-endian CRC32 of the payload, one zero byte, 11 zero bytes —
followed by the raw payload, for every payload (the header length is 16
even for the empty payload), and decoding the emitted frame recovers the
payload and a checksum equal to crc32 of the payload. -/
theorem audio_framing_header_roundtrip (P : List Nat) (hP : ∀ b ∈ P, b < 256) :
    encodeFrame P = frameHeader P ++ P ∧
    (frameHeader P).length = 16 ∧
    frameHeader P = natToBeBytes4 (crc32 P) ++ [0] ++ List.replicate 11 0 ∧
    decodeFrame (encodeFrame P) = some (crc32 P, P) :=
  ⟨rfl, frameHeader_length P, rfl, decodeFrame_encodeFrame P hP⟩

/-- C1 witness at the payload `[1, 2, 3]`. -/
theorem audio_framing_header_roundtrip_witness :
    encodeFrame [1, 2, 3] = frameHeader [1, 2, 3] ++ [1, 2, 3] ∧
    (frameHeader [1, 2, 3]).length = 16 ∧
    frameHeader [1, 2, 3] =
      natToBeBytes4 (crc32 [1, 2, 3]) ++ [0] ++ List.replicate 11 0 ∧
    decodeFrame (encodeFrame [1, 2, 3]) = some (crc32 [1, 2, 3], [1, 2, 3]) :=
  audio_framing_header_roundtrip [1, 2, 3] (by decide)

/-- C2: a binary frame from the upstream agent connection is framed and
sent to the device immediately (and `agent_speaking` flips to true) when
`agent_speaking` is false; when `agent_speaking` is true the raw bytes
are appended to the pending playback buffer and nothing is sent. -/
theorem upstream_binary_send_or_buffer (env : Env) (s : SessionState)
    (audio : List Nat) (hc : s.stsConnected = true) :
    (s.agentSpeaking = false →
      step env s (Event.upstreamBinary audio) =
        ({ s with agentSpeaking := true }, [Output.sendDevice (encodeFrame audio)])) ∧
    (s.agentSpeaking = true →
      step env s (Event.upstreamBinary audio) =
        ({ s with bufferedAudio := s.bufferedAudio ++ audio }, [])) := by
  constructor <;> intro h <;> simp [step, hc, h]

/-- C2 witness: with `agent_speaking` false, a first upstream binary
frame is framed and sent; in the resulting state a second upstream frame
is buffered, not sent. -/
theorem upstream_binary_send_or_buffer_witness :
    step env0 ⟨none, none, true, false, []⟩ (Event.upstreamBinary [5]) =
      (⟨none, none, true, true, []⟩, [Output.sendDevice (encodeFrame [5])]) ∧
    step env0 ⟨none, none, true, true, []⟩ (Event.upstreamBinary [6]) =
      (⟨none, none, true, true, [6]⟩, []) :=
  ⟨(upstream_binary_send_or_buffer env0 ⟨none, none, true, false, []⟩ [5] rfl).1 rfl,
   (upstream_binary_send_or_buffer env0 ⟨none, none, true, true, []⟩ [6] rfl).2 rfl⟩

/-- C3: on a `Played` event in an active session, if the pending playback
buffer is non-empty exactly the buffered bytes are framed and sent to the
device as one frame, the buffer is emptied and `agent_speaking` is set
back to true; if the buffer is empty, `agent_speaking` becomes false and
nothing is sent. -/
theorem played_flush (env : Env) (s : SessionState) (_hc : s.stsConnected = true) :
    (s.bufferedAudio ≠ [] →
      step env s (Event.xch CrossChannelEvent.Played) =
        ({ s with agentSpeaking := true, bufferedAudio := [] },
         [Output.sendDevice (encodeFrame s.bufferedAudio)])) ∧
    (s.bufferedAudio = [] →
      step env s (Event.xch CrossChannelEvent.Played) =
        ({ s with agentSpeaking := false }, [])) := by
  constructor <;> intro h <;> simp [step, h]

/-- C3 witness: a `Played` with buffered bytes `[9]` flushes exactly that
frame and re-flips `agent_speaking`; a `Played` with an empty buffer
sends nothing and leaves `agent_speaking` false. -/
theorem played_flush_witness :
    step env0 ⟨none, none, true, true, [9]⟩ (Event.xch CrossChannelEvent.Played) =
      (⟨none, none, true, true, []⟩, [Output.sendDevice (encodeFrame [9])]) ∧
    step env0 ⟨none, none, true, true, []⟩ (Event.xch CrossChannelEvent.Played) =
      (⟨none, none, true, false, []⟩, []) :=
  ⟨(played_flush env0 ⟨none, none, true, true, [9]⟩ rfl).1 (by simp),
   (played_flush env0 ⟨none, none, true, true, []⟩ rfl).2 rfl⟩

/-- C4: `Depart` and `Escalation` in an active session both clear the
order id and the upstream sender/receiver, reset `agent_speaking`, clear
the playback buffer and make exactly one persistence call, tagged
"depart" and "escalation" respectively; their post-states are equal, so
the two transitions differ only in the reason string. -/
theorem depart_escalation_teardown (env : Env) (s : SessionState)
    (_hc : s.stsConnected = true) :
    step env s (Event.xch CrossChannelEvent.Depart) =
      ({ s with quOrderId := none, stsConnected := false,
                bufferedAudio := [], agentSpeaking := false },
       [Output.persist s.quOrderId s.dgRequestId "depart"]) ∧
    step env s (Event.xch CrossChannelEvent.Escalation) =
      ({ s with quOrderId := none, stsConnected := false,
                bufferedAudio := [], agentSpeaking := false },
       [Output.persist s.quOrderId s.dgRequestId "escalation"]) ∧
    (step env s (Event.xch CrossChannelEvent.Depart)).1 =
      (step env s (Event.xch CrossChannelEvent.Escalation)).1 :=
  ⟨rfl, rfl, rfl⟩

/-- C4 witness at a concrete active state. -/
theorem depart_escalation_teardown_witness :
    step env0 ⟨some "dg-1", some "order-9", true, true, [8]⟩
        (Event.xch CrossChannelEvent.Depart) =
      (⟨some "dg-1", none, false, false, []⟩,
       [Output.persist (some "order-9") (some "dg-1") "depart"]) ∧
    step env0 ⟨some "dg-1", some "order-9", true, true, [8]⟩
        (Event.xch CrossChannelEvent.Escalation) =
      (⟨some "dg-1", none, false, false, []⟩,
       [Output.persist (some "order-9") (some "dg-1") "escalation"]) ∧
    (step env0 ⟨some "dg-1", some "order-9", true, true, [8]⟩
        (Event.xch CrossChannelEvent.Depart)).1 =
      (step env0 ⟨some "dg-1", some "order-9", true, true, [8]⟩
        (Event.xch CrossChannelEvent.Escalation)).1 :=
  depart_escalation_teardown env0 ⟨some "dg-1", some "order-9", true, true, [8]⟩ rfl

/-- C5 counterexample: on an upstream Close frame the code only persists
with reason "close"; at a concrete active state the order id is NOT
cleared and the upstream sender/receiver state is NOT cleared, so the
session is not torn down as on Departure. -/
theorem upstream_close_no_teardown_cex :
    (step env0 ⟨some "dg-1", some "order-9", true, false, []⟩ Event.upstreamClose).1 =
      ⟨some "dg-1", some "order-9", true, false, []⟩ ∧
    ¬ ((step env0 ⟨some "dg-1", some "order-9", true, false, []⟩
          Event.upstreamClose).1.quOrderId = none) ∧
    ¬ ((step env0 ⟨some "dg-1", some "order-9", true, false, []⟩
          Event.upstreamClose).1.stsConnected = false) ∧
    (step env0 ⟨some "dg-1", some "order-9", true, false, []⟩ Event.upstreamClose).2 =
      [Output.persist (some "order-9") (some "dg-1") "close"] :=
  ⟨rfl, by simp [step], by simp [step], rfl⟩

/-- C5 (amended): an upstream Close frame makes exactly one persistence
call tagged "close" and changes nothing else: the order id, the upstream
sender/receiver state, `agent_speaking` and the playback buffer are all
left as they were. -/
theorem upstream_close_persists_only (env : Env) (s : SessionState)
    (hc : s.stsConnected = true) :
    step env s Event.upstreamClose =
      (s, [Output.persist s.quOrderId s.dgRequestId "close"]) := by
  simp [step, hc]

/-- C5 witness at a concrete active state. -/
theorem upstream_close_persists_only_witness :
    step env0 ⟨some "dg-2", some "order-3", true, true, [4]⟩ Event.upstreamClose =
      (⟨some "dg-2", some "order-3", true, true, [4]⟩,
       [Output.persist (some "order-3") (some "dg-2") "close"]) :=
  upstream_close_persists_only env0 ⟨some "dg-2", some "order-3", true, true, [4]⟩ rfl

/-- C6 counterexample: the Arrive transition performs no reset of
`agent_speaking` or of the pending playback buffer: from an idle-shaped
state with `agent_speaking = true` and a non-empty buffer, both survive
Arrive unchanged, refuting "regardless of their values before the
event". -/
theorem arrive_no_reset_cex :
    (⟨none, none, false, true, [7]⟩ : SessionState).stsConnected = false ∧
    (step env0 ⟨none, none, false, true, [7]⟩
        (Event.xch CrossChannelEvent.Arrive)).1.agentSpeaking = true ∧
    (step env0 ⟨none, none, false, true, [7]⟩
        (Event.xch CrossChannelEvent.Arrive)).1.bufferedAudio = [7] :=
  ⟨rfl, rfl, rfl⟩

/-- C6 (amended): Arrive opens the upstream session client and requests a
new order id, but contains no reset of `agent_speaking` or of the
playback buffer; nevertheless every state the event loop can actually
reach with no upstream connection already has `agent_speaking = false`
and an empty buffer, so after any Arrive received while Idle both are
false resp. empty. -/
theorem arrive_from_reachable_idle (env : Env) (s : SessionState)
    (hr : Reachable s) (hidle : s.stsConnected = false) :
    step env s (Event.xch CrossChannelEvent.Arrive) =
      ({ s with stsConnected := true, quOrderId := some env.newOrderId },
       [Output.stsConnect, Output.sendSettings, Output.call BackendCall.newOrder]) ∧
    (step env s (Event.xch CrossChannelEvent.Arrive)).1.agentSpeaking = false ∧
    (step env s (Event.xch CrossChannelEvent.Arrive)).1.bufferedAudio = [] := by
  obtain ⟨h1, h2⟩ := reachable_idle_inv hr hidle
  exact ⟨rfl, by simpa [step] using h1, by simpa [step] using h2⟩

/-- C6 witness at the initial (reachable, idle) state. -/
theorem arrive_from_reachable_idle_witness :
    step env0 initialState (Event.xch CrossChannelEvent.Arrive) =
      ({ initialState with stsConnected := true, quOrderId := some "order-1" },
       [Output.stsConnect, Output.sendSettings, Output.call BackendCall.newOrder]) ∧
    (step env0 initialState (Event.xch CrossChannelEvent.Arrive)).1.agentSpeaking = false ∧
    (step env0 initialState (Event.xch CrossChannelEvent.Arrive)).1.bufferedAudio = [] :=
  arrive_from_reachable_idle env0 initialState Reachable.init rfl

/-- C8: a client-side function call whose arguments string fails to parse
as JSON yields exactly one error-shaped FunctionCallResponse (with the
request's id and name and an error-describing content) sent upstream, and
invokes zero backend operations. -/
theorem invalid_arguments_function_call (env : Env) (quOrderId : Option String)
    (f : FunctionCallRequestItem) (e : String)
    (hclient : f.client_side = true)
    (hparse : env.parseArgs f.arguments = Except.error e) :
    handleFunction env quOrderId true f =
      [Output.sendResponse ⟨f.id, f.name, parseErrorContent e⟩] ∧
    ∀ c : BackendCall, Output.call c ∉ handleFunction env quOrderId true f := by
  have h1 : handleFunction env quOrderId true f =
      [Output.sendResponse ⟨f.id, f.name, parseErrorContent e⟩] := by
    simp [handleFunction, hclient, hparse, sendIf]
  refine ⟨h1, fun c => ?_⟩
  rw [h1]
  simp

/-- C8 witness: a concrete `add_item` call with unparseable arguments. -/
theorem invalid_arguments_function_call_witness :
    handleFunction env0 none true ⟨"fc-1", "add_item", "not json", true⟩ =
      [Output.sendResponse
        ⟨"fc-1", "add_item",
         parseErrorContent "expected value at line 1 column 1"⟩] ∧
    ∀ c : BackendCall,
      Output.call c ∉ handleFunction env0 none true ⟨"fc-1", "add_item", "not json", true⟩ :=
  invalid_arguments_function_call env0 none ⟨"fc-1", "add_item", "not json", true⟩
    "expected value at line 1 column 1" rfl rfl

/-- C9: an inbound device audio frame forwarded upstream is forwarded as
its channel extraction: length `2 * (L / 4)`, consisting for each
`k < L / 4` of the input bytes at offsets `4k` and `4k + 1`, in order. -/
theorem device_audio_forward (env : Env) (s : SessionState) (msg : List Nat)
    (hc : s.stsConnected = true) (hsp : s.agentSpeaking = false) :
    step env s (Event.deviceBinary msg) =
      (s, [Output.sendUpstreamBinary (captureFrame msg)]) ∧
    (captureFrame msg).length = 2 * (msg.length / 4) ∧
    (∀ k, k < msg.length / 4 →
      (captureFrame msg).getD (2 * k) 0 = msg.getD (4 * k) 0 ∧
      (captureFrame msg).getD (2 * k + 1) 0 = msg.getD (4 * k + 1) 0) := by
  refine ⟨?_, captureFrame_length msg, fun k hk => captureFrame_getD msg k hk⟩
  simp [step, ENABLE_BARGE_IN, hsp, hc]

/-- C9 witness: a 5-byte inbound frame is forwarded as its channel
extraction. -/
theorem device_audio_forward_witness :
    step env0 ⟨none, none, true, false, []⟩ (Event.deviceBinary [1, 2, 3, 4, 5]) =
      (⟨none, none, true, false, []⟩,
       [Output.sendUpstreamBinary (captureFrame [1, 2, 3, 4, 5])]) :=
  (device_audio_forward env0 ⟨none, none, true, false, []⟩ [1, 2, 3, 4, 5] rfl rfl).1

/-- C10: `persist_order` fetches the order and writes the snapshot file
only when both the order id and the agent session id are present; when
either is absent it performs no backend call and no file write. -/
theorem persist_order_guard (getOrder : String → String) (dir ts : String)
    (quOrderId dgRequestId : Option String) (reason : String) :
    (∀ oid did, quOrderId = some oid → dgRequestId = some did →
      persist_order getOrder dir ts quOrderId dgRequestId reason =
        [PersistEffect.fetchOrder oid,
         PersistEffect.writeFile
           (dir ++ "/" ++ (ts ++ "_" ++ oid ++ "_" ++ did ++ "_" ++ reason ++ ".json"))
           (getOrder oid)]) ∧
    ((quOrderId = none ∨ dgRequestId = none) →
      persist_order getOrder dir ts quOrderId dgRequestId reason = []) := by
  constructor
  · intro oid did h1 h2
    subst h1; subst h2
    rfl
  · rintro (h | h)
    · subst h; cases dgRequestId <;> rfl
    · subst h; cases quOrderId <;> rfl

/-- C10 witness: both ids present yields the fetch and the write; a
missing agent session id yields no effect. -/
theorem persist_order_guard_witness :
    persist_order (fun _ => "snapshot") "/orders" "t0" (some "o1") (some "d1") "depart" =
      [PersistEffect.fetchOrder "o1",
       PersistEffect.writeFile ("/orders" ++ "/" ++ ("t0" ++ "_" ++ "o1" ++ "_" ++ "d1" ++ "_" ++ "depart" ++ ".json"))
         "snapshot"] ∧
    persist_order (fun _ => "snapshot") "/orders" "t0" (some "o1") none "depart" = [] :=
  ⟨(persist_order_guard (fun _ => "snapshot") "/orders" "t0" (some "o1") (some "d1") "depart").1
      "o1" "d1" rfl rfl,
   (persist_order_guard (fun _ => "snapshot") "/orders" "t0" (some "o1") none "depart").2
      (Or.inr rfl)⟩
